import Mathlib

/-!
Verification of the lead-sourcing sync orchestration screen
(`src/app/(tabs)/lead-sourcing.tsx`).

The screen component `LeadSourcingScreen` holds the shared state the spec
calls the Lead Collection (`leads`), the Sync Attempt Set (`syncingLeads`,
a JS `Set<string>` of lead ids) and the Gateway Configuration Status
(`hubspotStatus.isConfigured`).  Its handlers `handleSearch`,
`handleSyncLead`, `handleSyncAllLeads`, the status helper
`getSyncStatusIcon` and the per-card `canSync` expression are embedded
below as pure functions over an explicit state record.  External effects
(`Alert.alert` notices, calls into the HubSpot gateway, calls into the
discovery store) are recorded as explicit output traces.
-/

namespace LeadSourcing

/-- A discovered lead, as used by the screen: only `id` and the
`syncedToHubSpot` flag are inspected by the core logic; all display
attributes are opaque to it. -/
structure Lead where
  id : String
  syncedToHubSpot : Bool
deriving DecidableEq, Repr

/-- An `Alert.alert(title, message)` notice surfaced to the user. -/
structure AlertMsg where
  title : String
  message : String
deriving DecidableEq, Repr

/-- The component state shared by the handlers: the lead collection from
`useLeadSourcingStore`, the search query, the Sync Attempt Set
(`syncingLeads : Set<string>`, kept as a duplicate-free insertion-ordered
list, matching JS `Set` semantics), and the gateway configuration flag
from `useHubSpotStore`. -/
structure ScreenState where
  leads : List Lead
  searchQuery : String
  syncingLeads : List String
  hubspotConfigured : Bool
deriving DecidableEq, Repr

/-- JS `new Set(prev).add(x)`: adds `x` unless already present;
a JS `Set` iterates in insertion order and never holds duplicates. -/
def insertId (x : String) (s : List String) : List String :=
  if s.contains x then s else s ++ [x]

/-- JS `newSet.delete(x)` on a duplicate-free set: removes `x` if present. -/
def deleteId (x : String) (s : List String) : List String :=
  s.erase x

/-- Outcome of one `await syncLeadToHubSpot(leadId)` call: the promise
resolves `true`, resolves `false`, or rejects (throws).  A rejection
carries `some msg` when the thrown value is an `Error` with message `msg`
and `none` when it is a non-`Error` value. -/
inductive GatewayOutcome where
  | ok : GatewayOutcome
  | failed : GatewayOutcome
  | threw : Option String → GatewayOutcome
deriving DecidableEq, Repr

/-- The gateway environment: what the external HubSpot call does for each
lead identifier. -/
def Gateway : Type := String → GatewayOutcome

/-- Modelled from the spec: `setSynced(leadId)` of the Lead Store
(`useLeadSourcingStore`, a file of this repository not under `src/`) —
"idempotently sets `syncedToHubSpot = true` for the lead with that id if
still present in the current collection; no-op if the lead was removed".
A successful `syncLeadToHubSpot` persists the flag this way. -/
def setSynced (leadId : String) (leads : List Lead) : List Lead :=
  leads.map fun l => if l.id == leadId then { l with syncedToHubSpot := true } else l

/-- Result of running a handler: the state it leaves behind, the ordered
gateway calls it issued (lead ids passed to `syncLeadToHubSpot`), and the
ordered alerts it surfaced. -/
structure HandlerResult where
  state : ScreenState
  gatewayCalls : List String
  alerts : List AlertMsg
deriving DecidableEq, Repr

/-- `handleSyncLead(leadId)` (src lines 53-78).  Checks the gateway
configuration flag; if unconfigured, alerts and returns with no state
change and no gateway call.  Otherwise adds `leadId` to `syncingLeads`,
awaits the gateway call, surfaces the outcome as an alert (the `catch`
block turns a rejection into a "Sync failed: ..." alert), and in the
`finally` block removes `leadId` from `syncingLeads` before returning.
On a `true` result the flag persistence of the store (`setSynced`) has
taken effect. -/
def handleSyncLead (gw : Gateway) (st : ScreenState) (leadId : String) : HandlerResult :=
  if !st.hubspotConfigured then
    { state := st
      gatewayCalls := []
      alerts := [⟨"Error", "HubSpot is not configured. Please configure it in Settings."⟩] }
  else
    let st1 : ScreenState := { st with syncingLeads := insertId leadId st.syncingLeads }
    let step : ScreenState × AlertMsg :=
      match gw leadId with
      | .ok =>
          ({ st1 with leads := setSynced leadId st1.leads },
           ⟨"Success", "Lead synced to HubSpot successfully"⟩)
      | .failed =>
          (st1, ⟨"Error", "Failed to sync lead to HubSpot"⟩)
      | .threw msg =>
          (st1, ⟨"Error", "Sync failed: " ++ msg.getD "Unknown error occurred"⟩)
    { state := { step.1 with syncingLeads := deleteId leadId step.1.syncingLeads }
      gatewayCalls := [leadId]
      alerts := [step.2] }

/-- The sequential loop inside the "Sync All" confirmation callback
(src lines 99-101): `for (const lead of leads) await handleSyncLead(lead.id)`,
threading the state and concatenating the traces in order. -/
def runSyncLoop (gw : Gateway) (st : ScreenState) : List Lead → HandlerResult
  | [] => { state := st, gatewayCalls := [], alerts := [] }
  | lead :: rest =>
      let r := handleSyncLead gw st lead.id
      let rs := runSyncLoop gw r.state rest
      { state := rs.state
        gatewayCalls := r.gatewayCalls ++ rs.gatewayCalls
        alerts := r.alerts ++ rs.alerts }

/-- The user's answer to the "Sync All Leads" confirmation prompt:
the `Cancel` button or the `Sync All` button. -/
inductive ConfirmChoice where
  | cancel : ConfirmChoice
  | confirmSyncAll : ConfirmChoice
deriving DecidableEq, Repr

/-- The confirmation prompt shown before a bulk sync (src lines 91-93). -/
def syncAllPrompt (st : ScreenState) : AlertMsg :=
  ⟨"Sync All Leads",
   "This will sync " ++ toString st.leads.length ++ " leads to HubSpot. Continue?"⟩

/-- `handleSyncAllLeads()` (src lines 80-106).  Fails fast with an alert
when the gateway is unconfigured, then when the lead collection is empty;
otherwise shows a confirmation prompt whose `Cancel` button does nothing
and whose `Sync All` button runs the sequential per-lead loop over the
current `leads`. -/
def handleSyncAllLeads (gw : Gateway) (st : ScreenState) (choice : ConfirmChoice) :
    HandlerResult :=
  if !st.hubspotConfigured then
    { state := st
      gatewayCalls := []
      alerts := [⟨"Error", "HubSpot is not configured. Please configure it in Settings."⟩] }
  else if st.leads.length == 0 then
    { state := st
      gatewayCalls := []
      alerts := [⟨"Error", "No leads to sync"⟩] }
  else
    match choice with
    | .cancel =>
        { state := st, gatewayCalls := [], alerts := [syncAllPrompt st] }
    | .confirmSyncAll =>
        let r := runSyncLoop gw st st.leads
        { state := r.state, gatewayCalls := r.gatewayCalls, alerts := syncAllPrompt st :: r.alerts }

/-- Result of `handleSearch()`: the queries dispatched to the discovery
store (`searchLeads`) and the alerts surfaced. -/
structure SearchCall where
  searchLeadsCalls : List String
  alerts : List AlertMsg
deriving DecidableEq, Repr

/-- JS `!query.trim()` is truthy exactly when the query trims to the
empty string, i.e. every character of the query is whitespace. -/
def isBlankQuery (s : String) : Bool :=
  s.toList.all fun c => c.isWhitespace

/-- `handleSearch()` (src lines 44-51): if the query is blank after
trimming, alert and return without calling `searchLeads`; otherwise
dispatch the (untrimmed) query to `searchLeads`. -/
def handleSearch (st : ScreenState) : SearchCall :=
  if isBlankQuery st.searchQuery then
    { searchLeadsCalls := [], alerts := [⟨"Error", "Please enter a search query"⟩] }
  else
    { searchLeadsCalls := [st.searchQuery], alerts := [] }

/-- The three icons `getSyncStatusIcon` can render: the in-progress
spinner, the synced check mark, and the sync-prompt bolt. -/
inductive SyncIcon where
  | activityIndicator : SyncIcon
  | checkCircle : SyncIcon
  | zap : SyncIcon
deriving DecidableEq, Repr

/-- `getSyncStatusIcon(leadId)` (src lines 108-117): the spinner when
`leadId` is in `syncingLeads`, else the check mark when the lead is found
and its `syncedToHubSpot` is true, else the bolt. -/
def getSyncStatusIcon (st : ScreenState) (leadId : String) : SyncIcon :=
  if st.syncingLeads.contains leadId then
    .activityIndicator
  else
    match st.leads.find? (fun l => l.id == leadId) with
    | some l => if l.syncedToHubSpot then .checkCircle else .zap
    | none => .zap

/-- The `canSync` prop of each rendered `LeadCard` (src line 199):
`hubspotStatus.isConfigured && !syncingLeads.has(lead.id)`. -/
def canSync (st : ScreenState) (leadId : String) : Bool :=
  st.hubspotConfigured && !(st.syncingLeads.contains leadId)

/-- Whether the character list `sub` occurs contiguously inside the second
list. -/
def occursIn (sub : List Char) : List Char → Bool
  | [] => sub.isEmpty
  | c :: rest => sub.isPrefixOf (c :: rest) || occursIn sub rest

/-- Whether an alert mentions the string `s` in its title or message. -/
def mentions (s : String) (a : AlertMsg) : Bool :=
  occursIn s.toList a.title.toList || occursIn s.toList a.message.toList

/-- The cumulative effect of the batch loop on the lead collection: for
each batch element whose gateway call resolves `true`, `setSynced` is
applied; other outcomes leave the collection as is. -/
def syncBatchEffect (gw : Gateway) : List Lead → List Lead → List Lead
  | [], leads => leads
  | b :: rest, leads =>
      syncBatchEffect gw rest
        (if gw b.id = GatewayOutcome.ok then setSynced b.id leads else leads)

/-- Whether some batch element carries the identifier `id` and its gateway
call resolves `true`. -/
def batchHasOk (gw : Gateway) (batch : List Lead) (id : String) : Bool :=
  batch.any fun b => b.id == id && decide (gw b.id = GatewayOutcome.ok)

/-- A gateway environment where every call resolves `true`. -/
def gwAllOk : Gateway := fun _ => GatewayOutcome.ok

/-- A gateway environment where the call for lead `L2` resolves `false`
and every other call resolves `true`. -/
def gwFailL2 : Gateway := fun id => if id == "L2" then GatewayOutcome.failed else GatewayOutcome.ok

/-- The three-lead batch of the spec scenario, none synced yet. -/
def leadsL123 : List Lead := [⟨"L1", false⟩, ⟨"L2", false⟩, ⟨"L3", false⟩]

/-- The screen state of the spec scenario: three unsynced leads, nothing
in flight, gateway configured. -/
def stDemo : ScreenState :=
  ⟨leadsL123, "Oil and Gas Oklahoma Kansas", [], true⟩

/-- A state in which a sync for lead `L1` is already in flight (its
identifier is in the Sync Attempt Set) and the gateway is configured. -/
def stInFlight : ScreenState :=
  ⟨[⟨"L1", false⟩], "query", ["L1"], true⟩

/-- A state whose gateway is not configured, holding lead `L9`. -/
def stUnconfigured : ScreenState :=
  ⟨[⟨"L9", false⟩], "query", [], false⟩

/-- A state whose search query is blank (whitespace only). -/
def stBlankQuery : ScreenState :=
  ⟨[], "   ", [], true⟩

/-- A configured state with an empty lead collection. -/
def stEmptyLeads : ScreenState :=
  ⟨[], "query", [], true⟩

/-- A state in which lead `L1` is already synced and simultaneously has a
sync in flight. -/
def stSyncedInFlight : ScreenState :=
  ⟨[⟨"L1", true⟩], "query", ["L1"], true⟩

/-- Inserting into a duplicate-free set keeps it duplicate-free. -/
theorem insertId_nodup {x : String} {s : List String} (h : s.Nodup) :
    (insertId x s).Nodup := by
  unfold insertId
  split
  · exact h
  · rename_i hc
    have hx : x ∉ s := by simpa using hc
    simp [List.nodup_append, h, hx]

/-- When configured, `handleSyncLead` issues exactly one gateway call, for
the requested identifier, whatever the outcome. -/
theorem handleSyncLead_calls (gw : Gateway) (st : ScreenState) (id : String)
    (h : st.hubspotConfigured = true) :
    (handleSyncLead gw st id).gatewayCalls = [id] := by
  cases hgw : gw id <;> simp [handleSyncLead, h, hgw]

/-- `handleSyncLead` never changes the gateway configuration flag. -/
theorem handleSyncLead_config (gw : Gateway) (st : ScreenState) (id : String) :
    (handleSyncLead gw st id).state.hubspotConfigured = st.hubspotConfigured := by
  cases hcfg : st.hubspotConfigured <;> cases hgw : gw id <;>
    simp [handleSyncLead, hcfg, hgw]

/-- When configured, `handleSyncLead` updates the lead collection by
`setSynced` exactly when the gateway call resolves `true`. -/
theorem handleSyncLead_leads (gw : Gateway) (st : ScreenState) (id : String)
    (h : st.hubspotConfigured = true) :
    (handleSyncLead gw st id).state.leads =
      if gw id = GatewayOutcome.ok then setSynced id st.leads else st.leads := by
  cases hgw : gw id <;> simp [handleSyncLead, h, hgw]

/-- The batch loop never changes the gateway configuration flag. -/
theorem runSyncLoop_config (gw : Gateway) (batch : List Lead) :
    ∀ st : ScreenState,
      (runSyncLoop gw st batch).state.hubspotConfigured = st.hubspotConfigured := by
  induction batch with
  | nil => intro st; rfl
  | cons b rest ih =>
      intro st
      simp only [runSyncLoop]
      rw [ih, handleSyncLead_config]

/-- When configured, the batch loop issues one gateway call per batch
element, in batch order. -/
theorem runSyncLoop_calls (gw : Gateway) (batch : List Lead) :
    ∀ st : ScreenState, st.hubspotConfigured = true →
      (runSyncLoop gw st batch).gatewayCalls = batch.map (fun l => l.id) := by
  induction batch with
  | nil => intro st _; rfl
  | cons b rest ih =>
      intro st h
      have hnext : (handleSyncLead gw st b.id).state.hubspotConfigured = true := by
        rw [handleSyncLead_config]; exact h
      simp only [runSyncLoop, List.map_cons]
      rw [handleSyncLead_calls gw st b.id h, ih _ hnext]
      rfl

/-- When configured, the batch loop's effect on the lead collection is
`syncBatchEffect`. -/
theorem runSyncLoop_leads (gw : Gateway) (batch : List Lead) :
    ∀ st : ScreenState, st.hubspotConfigured = true →
      (runSyncLoop gw st batch).state.leads = syncBatchEffect gw batch st.leads := by
  induction batch with
  | nil => intro st _; rfl
  | cons b rest ih =>
      intro st h
      have hnext : (handleSyncLead gw st b.id).state.hubspotConfigured = true := by
        rw [handleSyncLead_config]; exact h
      simp only [runSyncLoop, syncBatchEffect]
      rw [ih _ hnext, handleSyncLead_leads gw st b.id h]

/-- `syncBatchEffect` is the pointwise map that sets the flag of exactly
those leads some matching batch element synced successfully. -/
theorem syncBatchEffect_map (gw : Gateway) (batch : List Lead) :
    ∀ leads : List Lead, syncBatchEffect gw batch leads =
      leads.map fun l =>
        if batchHasOk gw batch l.id then { l with syncedToHubSpot := true } else l := by
  induction batch with
  | nil =>
      intro leads
      simp [syncBatchEffect, batchHasOk]
  | cons b rest ih =>
      intro leads
      simp only [syncBatchEffect]
      rw [ih]
      by_cases hgw : gw b.id = GatewayOutcome.ok
      · rw [if_pos hgw]
        unfold setSynced
        rw [List.map_map]
        apply List.map_congr_left
        intro l _
        simp only [Function.comp_apply]
        by_cases hid : l.id = b.id
        · simp [batchHasOk, hid, hgw]
        · have hid2 : ¬ b.id = l.id := fun hh => hid hh.symm
          simp [batchHasOk, hid, hid2, hgw]
      · rw [if_neg hgw]
        apply List.map_congr_left
        intro l _
        simp [batchHasOk, hgw]

/-- For an element of the batch itself, `batchHasOk` at its identifier is
exactly whether its own gateway call resolves `true` (the gateway outcome
is a function of the identifier). -/
theorem batchHasOk_self (gw : Gateway) (batch : List Lead) (l : Lead)
    (hl : l ∈ batch) :
    batchHasOk gw batch l.id = decide (gw l.id = GatewayOutcome.ok) := by
  by_cases hgw : gw l.id = GatewayOutcome.ok
  · simp only [hgw, decide_True]
    unfold batchHasOk
    rw [List.any_eq_true]
    exact ⟨l, hl, by simp [hgw]⟩
  · simp only [hgw, decide_False]
    unfold batchHasOk
    rw [List.any_eq_false]
    intro b hb
    simp only [Bool.and_eq_true, beq_iff_eq, decide_eq_true_eq, not_and]
    intro hid hok
    exact hgw (hid ▸ hok)

/-- When the preconditions pass and the prompt is confirmed,
`handleSyncAllLeads` issues one gateway call per lead of the collection,
in collection order. -/
theorem handleSyncAllLeads_confirm_calls (gw : Gateway) (st : ScreenState)
    (h1 : st.hubspotConfigured = true) (h2 : st.leads ≠ []) :
    (handleSyncAllLeads gw st ConfirmChoice.confirmSyncAll).gatewayCalls
      = st.leads.map (fun l => l.id) := by
  have hlen : (st.leads.length == 0) = false := by
    simp [List.length_eq_zero]; exact h2
  simp only [handleSyncAllLeads, h1, Bool.not_true, Bool.false_eq_true, if_false, hlen]
  exact runSyncLoop_calls gw st.leads st h1

/-- When the preconditions pass and the prompt is confirmed, the final
lead collection is the input collection with the flag set on exactly the
leads whose gateway call resolves `true`. -/
theorem handleSyncAllLeads_confirm_leads (gw : Gateway) (st : ScreenState)
    (h1 : st.hubspotConfigured = true) (h2 : st.leads ≠ []) :
    (handleSyncAllLeads gw st ConfirmChoice.confirmSyncAll).state.leads
      = st.leads.map fun l =>
          if gw l.id = GatewayOutcome.ok then { l with syncedToHubSpot := true } else l := by
  have hlen : (st.leads.length == 0) = false := by
    simp [List.length_eq_zero]; exact h2
  simp only [handleSyncAllLeads, h1, Bool.not_true, Bool.false_eq_true, if_false, hlen]
  rw [runSyncLoop_leads gw st.leads st h1, syncBatchEffect_map]
  apply List.map_congr_left
  intro l hl
  rw [batchHasOk_self gw st.leads l hl]
  by_cases hgw : gw l.id = GatewayOutcome.ok <;> simp [hgw]

/-- C1 counterexample: with a sync for `L1` already in flight (its
identifier is in the Sync Attempt Set) and the gateway configured, a
second `handleSyncLead` call for `L1` still proceeds to the gateway
(its gateway-call trace is `[L1]`, not empty), contradicting the claim
that such a call fails fast with `AlreadyInFlight` and does not reach
the gateway. -/
theorem syncOne_inflight_reaches_gateway :
    stInFlight.syncingLeads.contains "L1" = true
    ∧ (handleSyncLead gwAllOk stInFlight "L1").gatewayCalls = ["L1"] :=
  ⟨rfl, rfl⟩

/-- C1 (amended): `handleSyncLead` performs no in-flight check — whenever
the gateway is configured, a call proceeds to the gateway even if the
identifier is already in the Sync Attempt Set.  The at-most-one
enforcement exists only at the UI layer: while the identifier is in
flight, the per-lead sync action is disabled (`canSync` is false), so no
second sync can be triggered through the rendered button. -/
theorem syncOne_no_inflight_guard (gw : Gateway) (st : ScreenState) (id : String)
    (h1 : st.hubspotConfigured = true) (h2 : st.syncingLeads.contains id = true) :
    (handleSyncLead gw st id).gatewayCalls = [id] ∧ canSync st id = false :=
  ⟨handleSyncLead_calls gw st id h1, by
    have hmem : id ∈ st.syncingLeads := by simpa using h2
    simp [canSync, hmem]⟩

/-- C1 witness: the amended claim at the concrete in-flight state. -/
theorem syncOne_no_inflight_guard_witness :
    (handleSyncLead gwAllOk stInFlight "L1").gatewayCalls = ["L1"]
    ∧ canSync stInFlight "L1" = false :=
  syncOne_no_inflight_guard gwAllOk stInFlight "L1" rfl rfl

/-- C2: for every gateway environment (so for every outcome of the
gateway call — success, failure result, or thrown exception), when
`handleSyncLead` returns, the requested identifier is no longer in the
Sync Attempt Set: the `finally` block's removal is unconditional, so no
lead is left permanently marked in-flight. -/
theorem syncOne_clears_attempt (gw : Gateway) (st : ScreenState) (id : String)
    (h1 : st.hubspotConfigured = true) (h2 : st.syncingLeads.Nodup) :
    id ∉ (handleSyncLead gw st id).state.syncingLeads := by
  have hnd : (insertId id st.syncingLeads).Nodup := insertId_nodup h2
  cases hgw : gw id <;> simp only [handleSyncLead, h1, Bool.not_true, hgw, deleteId] <;>
    simpa using hnd.not_mem_erase

/-- C2 witness: the theorem at a concrete state where `L1` is in flight
and the gateway succeeds. -/
theorem syncOne_clears_attempt_witness :
    "L1" ∉ (handleSyncLead gwAllOk stInFlight "L1").state.syncingLeads :=
  syncOne_clears_attempt gwAllOk stInFlight "L1" rfl (by decide)

/-- C3 counterexample: for the 3-lead batch where only `L2` fails,
`handleSyncAllLeads` returns no batch report at all — its only outputs
are the confirmation prompt and one generic alert per lead, and no
surfaced output carries the failing lead's identifier: `L2` occurs in
none of the alerts.  This contradicts the claim that `syncAll` returns a
`SyncBatchReport` listing failures with their lead identifiers and error
messages. -/
theorem syncAll_failure_alert_lacks_lead_id :
    (handleSyncAllLeads gwFailL2 stDemo ConfirmChoice.confirmSyncAll).alerts
      = [⟨"Sync All Leads", "This will sync 3 leads to HubSpot. Continue?"⟩,
         ⟨"Success", "Lead synced to HubSpot successfully"⟩,
         ⟨"Error", "Failed to sync lead to HubSpot"⟩,
         ⟨"Success", "Lead synced to HubSpot successfully"⟩]
    ∧ ∀ a ∈ (handleSyncAllLeads gwFailL2 stDemo ConfirmChoice.confirmSyncAll).alerts,
        mentions "L2" a = false := by
  exact ⟨by decide, by decide⟩

/-- C3 (amended): `handleSyncAllLeads` collects no report; each lead's
outcome is surfaced as an individual alert that does not name the lead.
For the batch `L1, L2, L3` where only `L2` fails, the derived counts
match the spec scenario — 3 gateway attempts in order, 2 leads end
synced, 1 lead (the second) ends unsynced — and the final collection is
`L1` synced, `L2` unsynced, `L3` synced. -/
theorem syncAll_scenario_outcome :
    (handleSyncAllLeads gwFailL2 stDemo ConfirmChoice.confirmSyncAll).gatewayCalls
      = ["L1", "L2", "L3"]
    ∧ (handleSyncAllLeads gwFailL2 stDemo ConfirmChoice.confirmSyncAll).gatewayCalls.length = 3
    ∧ (handleSyncAllLeads gwFailL2 stDemo ConfirmChoice.confirmSyncAll).state.leads
      = [⟨"L1", true⟩, ⟨"L2", false⟩, ⟨"L3", true⟩]
    ∧ ((handleSyncAllLeads gwFailL2 stDemo ConfirmChoice.confirmSyncAll).state.leads.filter
        fun l => l.syncedToHubSpot).length = 2
    ∧ ((handleSyncAllLeads gwFailL2 stDemo ConfirmChoice.confirmSyncAll).state.leads.filter
        fun l => !l.syncedToHubSpot).length = 1 :=
  ⟨rfl, rfl, rfl, rfl, rfl⟩

/-- C4: with the preconditions satisfied and the prompt confirmed, the
batch loop of `handleSyncAllLeads` attempts every lead of the collection
exactly once, strictly sequentially in collection order: the gateway-call
trace equals the list of lead identifiers in input order (the loop awaits
each `handleSyncLead` before starting the next, which the sequential
state threading of the embedding reflects). -/
theorem syncAll_sequential_order (gw : Gateway) (st : ScreenState)
    (h1 : st.hubspotConfigured = true) (h2 : st.leads ≠ []) :
    (handleSyncAllLeads gw st ConfirmChoice.confirmSyncAll).gatewayCalls
      = st.leads.map (fun l => l.id) :=
  handleSyncAllLeads_confirm_calls gw st h1 h2

/-- C4 witness: the theorem at the concrete 3-lead scenario state. -/
theorem syncAll_sequential_order_witness :
    (handleSyncAllLeads gwFailL2 stDemo ConfirmChoice.confirmSyncAll).gatewayCalls
      = stDemo.leads.map (fun l => l.id) :=
  syncAll_sequential_order gwFailL2 stDemo rfl (by decide)

/-- C5: for every batch and every gateway environment (so for every subset
of leads on which the gateway fails or throws), a failure on one lead does
not stop processing: every lead is still attempted, in order, and the
final collection is the input collection with the flag set on exactly the
leads whose gateway call succeeded — succeeded leads end `true`, failed
leads are left unchanged (so remain `false`). -/
theorem syncAll_partial_failure (gw : Gateway) (st : ScreenState)
    (h1 : st.hubspotConfigured = true) (h2 : st.leads ≠ []) :
    (handleSyncAllLeads gw st ConfirmChoice.confirmSyncAll).gatewayCalls
      = st.leads.map (fun l => l.id)
    ∧ (handleSyncAllLeads gw st ConfirmChoice.confirmSyncAll).state.leads
      = st.leads.map fun l =>
          if gw l.id = GatewayOutcome.ok then { l with syncedToHubSpot := true } else l :=
  ⟨handleSyncAllLeads_confirm_calls gw st h1 h2,
   handleSyncAllLeads_confirm_leads gw st h1 h2⟩

/-- C5 witness: the theorem at the concrete scenario where only `L2`
fails. -/
theorem syncAll_partial_failure_witness :
    (handleSyncAllLeads gwFailL2 stDemo ConfirmChoice.confirmSyncAll).gatewayCalls
      = stDemo.leads.map (fun l => l.id)
    ∧ (handleSyncAllLeads gwFailL2 stDemo ConfirmChoice.confirmSyncAll).state.leads
      = stDemo.leads.map fun l =>
          if gwFailL2 l.id = GatewayOutcome.ok then { l with syncedToHubSpot := true } else l :=
  syncAll_partial_failure gwFailL2 stDemo rfl (by decide)

/-- C6: when the gateway is not configured, `handleSyncLead` fails fast
with the not-configured error notice, makes no gateway call, and changes
no state: the returned state is exactly the input state, so the Lead
Store is untouched and the identifier is never added to the Sync Attempt
Set. -/
theorem syncOne_not_configured (gw : Gateway) (st : ScreenState) (id : String)
    (h : st.hubspotConfigured = false) :
    handleSyncLead gw st id
      = ⟨st, [],
         [⟨"Error", "HubSpot is not configured. Please configure it in Settings."⟩]⟩ := by
  simp [handleSyncLead, h]

/-- C6 witness: the theorem at the concrete unconfigured state with lead
`L9`. -/
theorem syncOne_not_configured_witness :
    handleSyncLead gwAllOk stUnconfigured "L9"
      = ⟨stUnconfigured, [],
         [⟨"Error", "HubSpot is not configured. Please configure it in Settings."⟩]⟩ :=
  syncOne_not_configured gwAllOk stUnconfigured "L9" rfl

/-- C7: precondition violations are surfaced immediately with no
collaborator call: a query that is blank after trimming makes
`handleSearch` alert and dispatch nothing to the discovery store, and an
empty lead collection makes `handleSyncAllLeads` (configured, any
confirmation choice) alert and return with no gateway call and no state
change. -/
theorem preconditions_fail_fast (gw : Gateway) (st1 st2 : ScreenState)
    (choice : ConfirmChoice)
    (h1 : isBlankQuery st1.searchQuery = true)
    (h2 : st2.leads = []) (h3 : st2.hubspotConfigured = true) :
    handleSearch st1 = ⟨[], [⟨"Error", "Please enter a search query"⟩]⟩
    ∧ handleSyncAllLeads gw st2 choice = ⟨st2, [], [⟨"Error", "No leads to sync"⟩]⟩ := by
  refine ⟨?_, ?_⟩
  · simp [handleSearch, h1]
  · simp [handleSyncAllLeads, h3, h2]

/-- C7 witness: the theorem at a whitespace-only query and at a
configured state with no leads. -/
theorem preconditions_fail_fast_witness :
    handleSearch stBlankQuery = ⟨[], [⟨"Error", "Please enter a search query"⟩]⟩
    ∧ handleSyncAllLeads gwAllOk stEmptyLeads ConfirmChoice.confirmSyncAll
      = ⟨stEmptyLeads, [], [⟨"Error", "No leads to sync"⟩]⟩ :=
  preconditions_fail_fast gwAllOk stBlankQuery stEmptyLeads
    ConfirmChoice.confirmSyncAll (by decide) rfl rfl

/-- C8: once the bulk-sync preconditions pass, the confirmation prompt
gates everything: choosing Cancel leaves the state exactly unchanged (no
Sync Attempt Set insertion), makes no gateway call, and surfaces only the
prompt; and any choice that produces a gateway call is the confirm
choice. -/
theorem bulk_sync_confirmation_gate (gw : Gateway) (st : ScreenState)
    (h1 : st.hubspotConfigured = true) (h2 : st.leads ≠ []) :
    handleSyncAllLeads gw st ConfirmChoice.cancel = ⟨st, [], [syncAllPrompt st]⟩
    ∧ ∀ choice : ConfirmChoice,
        (handleSyncAllLeads gw st choice).gatewayCalls ≠ []
        → choice = ConfirmChoice.confirmSyncAll := by
  have hlen : (st.leads.length == 0) = false := by
    simp [List.length_eq_zero]; exact h2
  refine ⟨?_, ?_⟩
  · simp [handleSyncAllLeads, h1, hlen]
  · intro choice hc
    cases choice
    · exact absurd (by simp [handleSyncAllLeads, h1, hlen]) hc
    · rfl

/-- C8 witness: the theorem at the concrete 3-lead scenario state. -/
theorem bulk_sync_confirmation_gate_witness :
    handleSyncAllLeads gwFailL2 stDemo ConfirmChoice.cancel
      = ⟨stDemo, [], [syncAllPrompt stDemo]⟩
    ∧ ∀ choice : ConfirmChoice,
        (handleSyncAllLeads gwFailL2 stDemo choice).gatewayCalls ≠ []
        → choice = ConfirmChoice.confirmSyncAll :=
  bulk_sync_confirmation_gate gwFailL2 stDemo rfl (by decide)

/-- C9: `getSyncStatusIcon` gives in-flight display precedence over
synced display: for a lead found in the collection, if its identifier is
in the Sync Attempt Set the icon is the in-progress spinner (even when
`syncedToHubSpot` is already true, since the lead is universally
quantified); if not in flight, the icon is the success check mark exactly
when `syncedToHubSpot` is true, and the sync-prompt bolt otherwise. -/
theorem sync_icon_inflight_precedence (st : ScreenState) (id : String) (l : Lead)
    (hfind : st.leads.find? (fun x => x.id == id) = some l) :
    (st.syncingLeads.contains id = true →
        getSyncStatusIcon st id = SyncIcon.activityIndicator)
    ∧ (st.syncingLeads.contains id = false →
        ((getSyncStatusIcon st id = SyncIcon.checkCircle ↔ l.syncedToHubSpot = true)
          ∧ (l.syncedToHubSpot = false → getSyncStatusIcon st id = SyncIcon.zap))) := by
  refine ⟨?_, ?_⟩
  · intro h
    have hmem : id ∈ st.syncingLeads := by simpa using h
    simp [getSyncStatusIcon, hmem]
  · intro h
    have hnot : id ∉ st.syncingLeads := by simpa using h
    refine ⟨?_, ?_⟩
    · cases hs : l.syncedToHubSpot <;> simp [getSyncStatusIcon, hnot, hfind, hs]
    · intro hs
      simp [getSyncStatusIcon, hnot, hfind, hs]

/-- C9 witness: the theorem at a state whose lead `L1` is both synced and
in flight — the spinner wins. -/
theorem sync_icon_inflight_precedence_witness :
    (stSyncedInFlight.syncingLeads.contains "L1" = true →
        getSyncStatusIcon stSyncedInFlight "L1" = SyncIcon.activityIndicator)
    ∧ (stSyncedInFlight.syncingLeads.contains "L1" = false →
        ((getSyncStatusIcon stSyncedInFlight "L1" = SyncIcon.checkCircle
            ↔ (Lead.mk "L1" true).syncedToHubSpot = true)
          ∧ ((Lead.mk "L1" true).syncedToHubSpot = false →
              getSyncStatusIcon stSyncedInFlight "L1" = SyncIcon.zap))) :=
  sync_icon_inflight_precedence stSyncedInFlight "L1" (Lead.mk "L1" true) (by decide)

/-- C10: the per-lead sync action is enabled exactly when the gateway is
configured and the lead's identifier is not in the Sync Attempt Set, so
while a lead's sync is in flight the rendered card offers no way to
trigger a second sync for it. -/
theorem canSync_iff (st : ScreenState) (id : String) :
    canSync st id = true
      ↔ (st.hubspotConfigured = true ∧ st.syncingLeads.contains id = false) := by
  unfold canSync
  cases h1 : st.hubspotConfigured <;> cases h2 : st.syncingLeads.contains id <;> simp

end LeadSourcing
